import Mathlib

/-
Verification of the lyxdoc document model and parser, shallowly embedded from
the two source files lyxclass.py and lyxdoc.py.  Python strings become Lean
strings, Python lists become Lean lists, exceptions become Except, and the
implicit None that a Python function returns when no branch fires becomes
Option.none.  Every definition below names the source function it embeds.
-/

set_option maxRecDepth 8000

/-- Python default whitespace for str.strip, restricted to the ASCII
whitespace characters that can occur in this line-oriented format. -/
def isPySpace (c : Char) : Bool :=
  c == ' ' || c == '\t' || c == '\n' || c == '\x0b' || c == '\x0c' || c == '\r'

/-- Python list-of-characters form of str.strip: drop leading and trailing
whitespace. -/
def pyStripList (l : List Char) : List Char :=
  ((l.dropWhile isPySpace).reverse.dropWhile isPySpace).reverse

/-- Python str.strip with the default whitespace set. -/
def pyStrip (s : String) : String := ⟨pyStripList s.toList⟩

/-- Python s.startswith(pre). -/
def pyStartsWith (s pre : String) : Bool := pre.toList.isPrefixOf s.toList

/-- Python s.split(' ', 1): the text before the first space and, when a space
occurs at all, the remainder after that first space. -/
def pySplit1 (s : String) : String × Option String :=
  match s.toList.dropWhile (fun c => !(c == ' ')) with
  | [] => (⟨s.toList.takeWhile (fun c => !(c == ' '))⟩, none)
  | _ :: tl => (⟨s.toList.takeWhile (fun c => !(c == ' '))⟩, some ⟨tl⟩)

/-- Replacement loop of Python str.replace over character lists.  The fuel
argument starts at the length of the input and every step consumes at least
one character, so the zero-fuel fallback is never taken. -/
def replFuel (pat rep : List Char) : Nat → List Char → List Char
  | _, [] => []
  | 0, l => l
  | fuel + 1, c :: cs =>
    if pat.isPrefixOf (c :: cs) && !pat.isEmpty then
      rep ++ replFuel pat rep fuel ((c :: cs).drop pat.length)
    else
      c :: replFuel pat rep fuel cs

/-- Python s.replace(pat, rep): replace every occurrence of pat. -/
def pyReplace (s pat rep : String) : String :=
  ⟨replFuel pat.toList rep.toList s.toList.length s.toList⟩

/-- Python s[n:] character slicing. -/
def pyDrop (s : String) (n : Nat) : String := ⟨s.toList.drop n⟩

/-- Splitting loop of Python str.split for a one-character separator. -/
def splitCharAux (sep : Char) : List Char → List Char → List String
  | [], acc => [⟨acc.reverse⟩]
  | c :: cs, acc =>
    if c == sep then ⟨acc.reverse⟩ :: splitCharAux sep cs []
    else splitCharAux sep cs (c :: acc)

/-- Python input_string.split(sep) for a one-character separator; on the empty
string it yields one empty piece, as Python does. -/
def pySplitChar (sep : Char) (s : String) : List String := splitCharAux sep s.toList []

/-- Newline join, Python chr(10).join(pieces). -/
def joinLines : List String → String
  | [] => ""
  | [a] => a
  | a :: b :: rest => a ++ "\n" ++ joinLines (b :: rest)

/-- Dynamically typed Python value as it occurs in a LyxDocument content list
or in the parser frame lists of lyxdoc.py: None, an int, a str, a LyxObject
with its tag and optional attribute, or a LyxContainer with its tag, optional
attribute and content list. -/
inductive Dyn : Type where
  | pyNone : Dyn
  | int (n : Nat) : Dyn
  | str (s : String) : Dyn
  | obj (tag : String) (attr : Option String) : Dyn
  | container (tag : String) (attr : Option String) (content : List Dyn) : Dyn

/-- Record form of lyxclass.LyxObject: a tag and an optional attribute. -/
structure LyxObject where
  tag : String
  attr : Option String

/-- Embeds LyxObject.tostring, lyxclass.py lines 23-32.  The Python string
literal there consists of four backslash source characters and therefore
denotes TWO backslash characters, so the rendered line starts with two
backslashes. -/
def LyxObject.tostring (o : LyxObject) : String :=
  "\\\\" ++ o.tag ++ (match o.attr with | some a => " " ++ a | none => "")

/-- Record form of lyxclass.CloseTag: only a tag. -/
structure CloseTag where
  tag : String

/-- Embeds CloseTag.tostring, lyxclass.py lines 150-156; the Python literal
again denotes two backslash characters. -/
def CloseTag.tostring (c : CloseTag) : String := "\\\\end_" ++ c.tag

mutual

/-- Python str(x) on a content item: a str is itself, None prints as the word
None, an int prints in decimal, a LyxObject via LyxObject.tostring, and a
LyxContainer via LyxContainer.tostring, lyxclass.py lines 75-84: the begin
line, every child on its own line, the end line, joined by newlines, with the
two-backslash prefixes the Python literals denote. -/
def pyStr : Dyn → String
  | Dyn.pyNone => "None"
  | Dyn.int n => toString n
  | Dyn.str s => s
  | Dyn.obj t a => LyxObject.tostring ⟨t, a⟩
  | Dyn.container t a c =>
      joinLines
        (("\\\\begin_" ++ t ++ (match a with | some x => " " ++ x | none => ""))
          :: (pyStrList c ++ ["\\\\end_" ++ t]))

/-- String form of each element of a content list, in order. -/
def pyStrList : List Dyn → List String
  | [] => []
  | d :: ds => pyStr d :: pyStrList ds

end

/-- Classified line as produced by LyxDocument._parse_line: raw text, a leaf
LyxObject, a fresh LyxContainer, or a CloseTag.  The closeTag constructor
mirrors the isinstance branch of the constructor loop; the function below
never actually produces it. -/
inductive PLine : Type where
  | text (s : String) : PLine
  | obj (tag : String) (attr : Option String) : PLine
  | container (tag : String) (attr : Option String) : PLine
  | closeTag (tag : String) : PLine

/-- Embeds LyxDocument._parse_line, lyxdoc.py lines 145-168.  An empty line or
a line not starting with a backslash is returned as raw text; a line starting
with a backslash but with neither begin nor end after stripping becomes a
LyxObject whose tag drops the leading backslash; a begin line becomes a
LyxContainer whose tag strips the begin prefix.  A line starting with the
escaped end keyword matches no branch of the Python function, which therefore
falls off the end and returns None, embedded as Option.none. -/
def parse_line (line : String) : Option PLine :=
  match line.toList with
  | [] => some (PLine.text line)
  | c :: _ =>
    if c != '\\' then some (PLine.text line)
    else
      if !(pyStartsWith (pyStrip line) "\\begin") && !(pyStartsWith (pyStrip line) "\\end") then
        match pySplit1 (pyStrip line) with
        | (a, some b) => some (PLine.obj (pyDrop a 1) (some b))
        | (a, none) => some (PLine.obj (pyDrop a 1) none)
      else if pyStartsWith (pyStrip line) "\\begin" then
        match pySplit1 (pyStrip line) with
        | (a, some b) => some (PLine.container (pyReplace a "\\begin_" "") (some b))
        | (a, none) => some (PLine.container (pyReplace a "\\begin_" "") none)
      else
        none

/-- C3: the claim says a line starting with the end keyword is classified as a
CloseTag whose tag is the text after the end prefix, and that consuming it
appends the close line and pops the frame stack.  The code disagrees: no
branch of _parse_line covers such a line, so the function returns None and the
CloseTag branch of the constructor is dead code; the line is appended as plain
content and no frame is ever popped. -/
theorem c3_end_line_returns_none :
    parse_line "\\end_body" = none ∧
    parse_line "\\end_body" ≠ some (PLine.closeTag "body") := by
  constructor
  · rfl
  · intro h
    rw [show parse_line "\\end_body" = none from rfl] at h
    exact Option.noConfusion h

/-- C7: the claim says LyxObject rendering yields one literal backslash then
the tag, then optionally a space and the attribute.  The code writes a Python
literal that denotes two backslashes, so the rendered line starts with two
backslash characters, not one. -/
theorem c7_tostring_double_backslash :
    LyxObject.tostring ⟨"x", none⟩ = "\\\\x" ∧
    LyxObject.tostring ⟨"x", none⟩ ≠ "\\x" ∧
    LyxObject.tostring ⟨"x", some "y"⟩ = "\\\\x y" ∧
    LyxObject.tostring ⟨"x", some "y"⟩ ≠ "\\x y" := by
  refine ⟨rfl, ?_, rfl, ?_⟩ <;> decide

/-- Python exceptions that the embedded methods can raise. -/
inductive PyErr : Type where
  | attributeError : PyErr
  | indexError : PyErr

/-- One element of a parser frame list.  The constructor of LyxDocument sets
up the stack as a list holding one root frame, itself a fresh list whose only
element is a reference to the lyx_content list; ref marks that reference and
val marks every later appended value.  Every append in the loop targets the
last frame list, never lyx_content itself, so lyx_content is carried
separately by the parse state and is never written. -/
inductive FrameElem : Type where
  | ref : FrameElem
  | val (d : Dyn) : FrameElem

/-- State of the constructor loop of LyxDocument: the lyx_content list, the
stack of frame lists, and the number of warnings logged so far. -/
structure ParseState where
  lyxContent : List Dyn
  parentsRef : List (List FrameElem)
  warnings : Nat

/-- Appending to the last frame of the stack; none models the IndexError that
Python raises indexing an empty list. -/
def appendLastFrame (e : FrameElem) : List (List FrameElem) → Option (List (List FrameElem))
  | [] => none
  | [f] => some [f ++ [e]]
  | f :: g :: rest =>
    match appendLastFrame e (g :: rest) with
    | some rest' => some (f :: rest')
    | none => none

/-- Python attribute access x.tag on a content value: LyxObject and
LyxContainer carry a tag, every other value raises AttributeError. -/
def dynTag : Dyn → Option String
  | Dyn.obj t _ => some t
  | Dyn.container t _ _ => some t
  | _ => none

/-- One iteration of the constructor loop of LyxDocument, lyxdoc.py lines
128-140, over a single input line.  A CloseTag result would log the
close-without-opening warning when the top frame holds only its opener, append
the rendered close line to the top frame and pop it; a LyxContainer is
appended to the top frame and pushed as a fresh frame holding just itself;
every other result, including the None produced for end lines, is appended to
the top frame. -/
def parseStep (st : ParseState) (line : String) : Except PyErr ParseState :=
  match parse_line line with
  | some (PLine.closeTag t) =>
    match st.parentsRef.getLast? with
    | none => Except.error PyErr.indexError
    | some top =>
      if top.length == 1 then
        match top.getLast? with
        | some (FrameElem.val d) =>
          match dynTag d with
          | some _ =>
            match appendLastFrame (FrameElem.val (Dyn.str (CloseTag.tostring ⟨t⟩))) st.parentsRef with
            | none => Except.error PyErr.indexError
            | some pr => Except.ok { st with parentsRef := pr.dropLast, warnings := st.warnings + 1 }
          | none => Except.error PyErr.attributeError
        | _ => Except.error PyErr.attributeError
      else
        match appendLastFrame (FrameElem.val (Dyn.str (CloseTag.tostring ⟨t⟩))) st.parentsRef with
        | none => Except.error PyErr.indexError
        | some pr => Except.ok { st with parentsRef := pr.dropLast }
  | some (PLine.container t a) =>
    match appendLastFrame (FrameElem.val (Dyn.container t a [])) st.parentsRef with
    | none => Except.error PyErr.indexError
    | some pr => Except.ok { st with parentsRef := pr ++ [[FrameElem.val (Dyn.container t a [])]] }
  | some (PLine.obj t a) =>
    match appendLastFrame (FrameElem.val (Dyn.obj t a)) st.parentsRef with
    | none => Except.error PyErr.indexError
    | some pr => Except.ok { st with parentsRef := pr }
  | some (PLine.text s) =>
    match appendLastFrame (FrameElem.val (Dyn.str s)) st.parentsRef with
    | none => Except.error PyErr.indexError
    | some pr => Except.ok { st with parentsRef := pr }
  | none =>
    match appendLastFrame (FrameElem.val Dyn.pyNone) st.parentsRef with
    | none => Except.error PyErr.indexError
    | some pr => Except.ok { st with parentsRef := pr }

/-- Folding the constructor loop over all input lines. -/
def parseLines : List String → ParseState → Except PyErr ParseState
  | [], st => Except.ok st
  | l :: ls, st =>
    match parseStep st l with
    | Except.error e => Except.error e
    | Except.ok st' => parseLines ls st'

/-- Observable result of LyxDocument construction: the content list the
instance keeps and the number of warnings logged during construction. -/
structure LyxDocument where
  content : List Dyn
  warnings : Nat

/-- Embeds LyxDocument constructor, lyxdoc.py lines 119-143: split the input
on newlines, run the loop starting from the stack holding the single root
frame that references lyx_content, then log one more warning when more than
the root frame is still open, and keep lyx_content as the document content. -/
def mkLyxDocumentE (input : String) : Except PyErr LyxDocument :=
  match parseLines (pySplitChar '\n' input)
      { lyxContent := [], parentsRef := [[FrameElem.ref]], warnings := 0 } with
  | Except.error e => Except.error e
  | Except.ok st =>
    Except.ok
      { content := st.lyxContent,
        warnings := if st.parentsRef.length > 1 then st.warnings + 1 else st.warnings }

/-- Embeds LyxDocument.tostring, lyxdoc.py lines 244-250: newline join of the
string form of every content item. -/
def LyxDocument.tostring (d : LyxDocument) : String :=
  joinLines (pyStrList d.content)

/-- Python truth of whether an Except value is a normal return. -/
def exceptIsOk {ε α : Type} : Except ε α → Bool
  | Except.ok _ => true
  | Except.error _ => false

/-- C2: the claim says the root frame of the parse stack is the document's own
content list, so parsed top-level elements end up in it in line order.  The
code instead makes the root frame a fresh list whose single element is a
reference to lyx_content, and every append targets the frame list, so
lyx_content is never written: the document parsed from a one-line raw text
input has empty content rather than that line. -/
theorem c2_content_always_empty :
    (mkLyxDocumentE "hello").map (fun d => d.content) = Except.ok [] ∧
    ([] : List Dyn) ≠ [Dyn.str "hello"] := by
  constructor
  · rfl
  · intro h
    exact List.noConfusion h

/-- C6: the claim says well-formed input, every begin matched by a matching
end at the same depth, produces zero structural warnings.  Because end lines
are classified as None and never pop a frame, the container opened by the
begin line is still open at end of input and the constructor logs the
unclosed-frames warning: the minimal well-formed pair yields one warning, not
zero. -/
theorem c6_wellformed_input_warns :
    (mkLyxDocumentE "\\begin_a\n\\end_a").map (fun d => d.warnings) = Except.ok 1 ∧
    (1 : Nat) ≠ 0 := by
  constructor
  · rfl
  · decide

/-- C1: the claim is the round trip, rendering a tree, parsing the text and
rendering again reproduces the text.  For the one-leaf tree LyxObject x the
first render emits a line with two leading backslashes, and parsing any text
yields a document with empty content, so the second render is the empty
string and differs from the first render. -/
theorem c1_roundtrip_fails_on_leaf :
    (mkLyxDocumentE (pyStr (Dyn.obj "x" none))).map LyxDocument.tostring = Except.ok "" ∧
    pyStr (Dyn.obj "x" none) ≠ "" := by
  have hrender : pyStr (Dyn.obj "x" none) = "\\\\x" := by
    simp [pyStr, LyxObject.tostring]
  constructor
  · rw [hrender]
    have hdoc : mkLyxDocumentE "\\\\x" = Except.ok { content := [], warnings := 0 } := by rfl
    rw [hdoc]
    simp [Except.map, LyxDocument.tostring, pyStrList, joinLines]
  · rw [hrender]
    decide

mutual

/-- Size of a content value, one for the value itself plus the size of a
container content, used as the decreasing measure of the search loop. -/
def dynSize : Dyn → Nat
  | Dyn.container _ _ c => 1 + dynListSize c
  | _ => 1

/-- Total size of a content list. -/
def dynListSize : List Dyn → Nat
  | [] => 0
  | d :: ds => dynSize d + dynListSize ds

end

theorem dynSize_pos (d : Dyn) : 0 < dynSize d := by
  cases d <;> simp [dynSize]

/-- Initial queue of find_tag, lyxdoc.py line 177.  The comprehension unpacks
enumerate as x, i, so x is the INDEX and i is the ELEMENT: the queue pairs an
int with a path list whose single entry is the content element. -/
def initItems (i : Nat) : List Dyn → List (Dyn × List Dyn)
  | [] => []
  | d :: ds => (Dyn.int i, [d]) :: initItems (i + 1) ds

/-- Queue entries for the children of a container, lyxdoc.py lines 184-185:
each child paired with the parent path extended by the child index. -/
def childItems (path : List Dyn) (i : Nat) : List Dyn → List (Dyn × List Dyn)
  | [] => []
  | d :: ds => (d, path ++ [Dyn.int i]) :: childItems path (i + 1) ds

/-- Total size of the first components of a queue. -/
def queueMeasure : List (Dyn × List Dyn) → Nat
  | [] => 0
  | (d, _) :: rest => dynSize d + queueMeasure rest

theorem queueMeasure_append (a b : List (Dyn × List Dyn)) :
    queueMeasure (a ++ b) = queueMeasure a + queueMeasure b := by
  induction a with
  | nil => simp [queueMeasure]
  | cons hd tl ih =>
    obtain ⟨d, p⟩ := hd
    simp [queueMeasure, ih]
    omega

theorem childItems_measure (path : List Dyn) (i : Nat) (c : List Dyn) :
    queueMeasure (childItems path i c) = dynListSize c := by
  induction c generalizing i with
  | nil => simp [childItems, queueMeasure, dynListSize]
  | cons d ds ih => simp [childItems, queueMeasure, dynListSize, ih]

/-- Breadth-first loop of find_tag, lyxdoc.py lines 179-191.  A value with a
tag attribute is matched and its children enqueued; a LyxObject has a tag but
no content attribute, so iterating obj.content raises AttributeError; values
with neither tag nor content, in particular the ints placed in the queue by
the swapped enumerate unpacking, are skipped. -/
def findTagLoop (tag : String) (q : List (Dyn × List Dyn)) (found : List (Dyn × List Dyn)) :
    Except PyErr (List (Dyn × List Dyn)) :=
  match q with
  | [] => Except.ok found
  | (d, path) :: rest =>
    match d with
    | Dyn.obj _ _ => Except.error PyErr.attributeError
    | Dyn.container t a c =>
      findTagLoop tag (rest ++ childItems path 0 c)
        (if t == tag then found ++ [(Dyn.container t a c, path)] else found)
    | Dyn.pyNone => findTagLoop tag rest found
    | Dyn.int _ => findTagLoop tag rest found
    | Dyn.str _ => findTagLoop tag rest found
termination_by queueMeasure q
decreasing_by
  · rw [queueMeasure_append, childItems_measure]
    simp [queueMeasure, dynSize]
    omega
  all_goals
    simp [queueMeasure, dynSize]

/-- Embeds LyxDocument.find_tag, lyxdoc.py lines 170-191, as a function of the
content list the document holds. -/
def find_tag (content : List Dyn) (tag : String) : Except PyErr (List (Dyn × List Dyn)) :=
  findTagLoop tag (initItems 0 content) []

/-- C4: the claim says find_tag is a breadth-first search returning every
element with the given tag paired with its index path, and in particular one
match with path holding the top-level position for a document with exactly one
body block.  The code unpacks enumerate backwards, so the queue holds the
indices instead of the elements; an int has neither tag nor content attribute,
so every queue entry is skipped and the search finds nothing even when a body
container sits at top level. -/
theorem c4_find_tag_finds_nothing :
    find_tag [Dyn.container "body" none []] "body" = Except.ok [] ∧
    find_tag [Dyn.container "body" none []] "body" ≠
      Except.ok [(Dyn.container "body" none [], [Dyn.int 0])] := by
  have h : find_tag [Dyn.container "body" none []] "body" = Except.ok [] := by
    simp [find_tag, initItems, findTagLoop]
  constructor
  · exact h
  · rw [h]
    intro hbad
    have := Except.ok.inj hbad
    exact List.noConfusion this

/-- Embeds LyxDocument._get_body, lyxdoc.py lines 218-230.  On a fresh
document the instance has no _body_id attribute, so the hasattr guard is
skipped, and the next statement calls self._find_tag, a method that neither
LyxDocument nor anything else in the repository defines; the only defined
method is find_tag.  The attribute lookup therefore raises AttributeError
before any work is done, whatever the document content is. -/
def get_body (content : List Dyn) : Except PyErr (Option Dyn) :=
  Except.error PyErr.attributeError

/-- Default levels tuple of parse_lyx_parts, lyxdoc.py line 193. -/
def defaultAttributes : List String := ["Section", "Subsection", "Subsubsection"]

/-- Embeds LyxDocument.parse_lyx_parts, lyxdoc.py lines 193-216.  The method
first calls _get_body, which always raises AttributeError, so the exception
propagates out of every call; the Part-building loop and the final return of
the empty list are unreachable, which is why the ok branch below, the dead
return-empty path, is never taken. -/
def parse_lyx_parts (content : List Dyn) (attributes : List String) :
    Except PyErr (List Dyn) :=
  match get_body content with
  | Except.error e => Except.error e
  | Except.ok _ => Except.ok []

/-- C5: the claim says that on a document with no body element,
parse_lyx_parts returns an empty result and does not raise.  The code raises
AttributeError on every call, body or not, because _get_body invokes the
undefined method _find_tag; the document parsed from the empty string has no
body element and still gets the exception instead of the empty list. -/
theorem c5_parse_lyx_parts_raises :
    mkLyxDocumentE "" = Except.ok { content := [], warnings := 0 } ∧
    parse_lyx_parts [] defaultAttributes = Except.error PyErr.attributeError ∧
    parse_lyx_parts [] defaultAttributes ≠ Except.ok [] := by
  refine ⟨rfl, rfl, ?_⟩
  intro h
  exact Except.noConfusion h

/-- Body container of the scenario of C8: direct children Section A,
Subsection A.1, a loose text line, Section B. -/
def c8Body : Dyn :=
  Dyn.container "body" (some "")
    [Dyn.container "layout" (some "Section") [Dyn.str "A"],
     Dyn.container "layout" (some "Subsection") [Dyn.str "A.1"],
     Dyn.str "loose text",
     Dyn.container "layout" (some "Section") [Dyn.str "B"]]

/-- C8: the claim describes the level-based grouping parse_lyx_parts should
produce for body children Section A, Subsection A.1, loose text, Section B.
The call never reaches the grouping loop: _get_body raises AttributeError
through the undefined _find_tag on every document, including this one, so no
Part is ever returned. -/
theorem c8_parse_lyx_parts_raises_on_sections :
    parse_lyx_parts [c8Body] ["Section", "Subsection"] = Except.error PyErr.attributeError ∧
    exceptIsOk (parse_lyx_parts [c8Body] ["Section", "Subsection"]) = false := by
  exact ⟨rfl, rfl⟩

/-- Replacement table of LyxLabel.label_modifier, lyxclass.py lines 190-192:
the word each special character maps to, none for every other character. -/
def labelSub (c : Char) : Option String :=
  if c == '%' then some "percent"
  else if c == '_' then some "underline"
  else if c == '^' then some "slide"
  else if c == '#' then some "pound"
  else if c == '\x7b' then some "bracketStart"
  else if c == '\x7d' then some "bracketEnd"
  else if c == '\\' then some "backwardSlash"
  else if c == '=' then some "equal"
  else none

/-- Substitution pass of label_modifier.  The compiled regex is an alternation
of the eight escaped one-character keys, and re.sub with a one-character
alternation replaces each occurrence independently left to right, that is, it
maps each character of the input through the table. -/
def labelModAux : List Char → List Char
  | [] => []
  | c :: cs =>
    (match labelSub c with
     | some w => w.toList
     | none => [c]) ++ labelModAux cs

/-- Embeds LyxLabel.label_modifier, lyxclass.py lines 182-195. -/
def label_modifier (s : String) : String := ⟨labelModAux s.toList⟩

theorem labelModAux_append (l1 l2 : List Char) :
    labelModAux (l1 ++ l2) = labelModAux l1 ++ labelModAux l2 := by
  induction l1 with
  | nil => simp [labelModAux]
  | cons c cs ih => simp [labelModAux, ih]

/-- C9: the label modifier replaces every occurrence of each of the eight
special characters with its literal word and leaves every other character
unchanged, with no separators inserted; in particular the spec example input
maps to the exact concatenation. -/
theorem c9_label_modifier_ok :
    (∀ c : Char, c ∉ ['%', '_', '^', '#', '\x7b', '\x7d', '\\', '='] →
        label_modifier (String.singleton c) = String.singleton c) ∧
    (∀ s t : String, label_modifier (s ++ t) = label_modifier s ++ label_modifier t) ∧
    label_modifier "a_b%c" = "aunderlinebpercentc" ∧
    label_modifier "%" = "percent" ∧
    label_modifier "_" = "underline" ∧
    label_modifier "^" = "slide" ∧
    label_modifier "#" = "pound" ∧
    label_modifier "\x7b" = "bracketStart" ∧
    label_modifier "\x7d" = "bracketEnd" ∧
    label_modifier "\\" = "backwardSlash" ∧
    label_modifier "=" = "equal" := by
  refine ⟨?_, ?_, rfl, rfl, rfl, rfl, rfl, rfl, rfl, rfl, rfl⟩
  · intro c hc
    simp only [List.mem_cons, List.not_mem_nil, or_false, not_or] at hc
    have hsub : labelSub c = none := by
      simp [labelSub, hc.1, hc.2.1, hc.2.2.1, hc.2.2.2.1, hc.2.2.2.2.1,
        hc.2.2.2.2.2.1, hc.2.2.2.2.2.2.1, hc.2.2.2.2.2.2.2]
    show (⟨labelModAux [c]⟩ : String) = ⟨[c]⟩
    rw [show labelModAux [c] = [c] by simp [labelModAux, hsub]]
  · intro s t
    have ht : (s ++ t).toList = s.toList ++ t.toList := rfl
    show (⟨labelModAux (s ++ t).toList⟩ : String) =
      (⟨labelModAux s.toList ++ labelModAux t.toList⟩ : String)
    rw [ht, labelModAux_append]

/-- Witness for C9, applying the theorem at the concrete character q, which is
not one of the eight special characters. -/
theorem c9_label_modifier_witness :
    label_modifier (String.singleton 'q') = String.singleton 'q' :=
  c9_label_modifier_ok.1 'q' (by decide)

theorem parse_line_no_closeTag (l t : String) :
    parse_line l ≠ some (PLine.closeTag t) := by
  intro h
  unfold parse_line at h
  split at h
  · simp at h
  · split at h
    · simp at h
    · split at h
      · split at h <;> simp at h
      · split at h
        · split at h <;> simp at h
        · simp at h

theorem appendLastFrame_ok (e : FrameElem) (fr : List (List FrameElem)) :
    fr ≠ [] → ∃ fr', appendLastFrame e fr = some fr' ∧ fr' ≠ [] := by
  induction fr with
  | nil => intro h; exact absurd rfl h
  | cons f rest ih =>
    intro _
    cases rest with
    | nil => exact ⟨[f ++ [e]], rfl, by simp⟩
    | cons g rest2 =>
      obtain ⟨fr', hfr, _⟩ := ih (by simp)
      exact ⟨f :: fr', by simp [appendLastFrame, hfr], by simp⟩

theorem parseStep_ok (st : ParseState) (l : String) (h : st.parentsRef ≠ []) :
    ∃ st', parseStep st l = Except.ok st' ∧ st'.parentsRef ≠ [] := by
  cases hp : parse_line l with
  | none =>
    obtain ⟨fr', hfr, hne⟩ := appendLastFrame_ok (FrameElem.val Dyn.pyNone) st.parentsRef h
    exact ⟨{ st with parentsRef := fr' }, by simp [parseStep, hp, hfr], hne⟩
  | some pl =>
    cases pl with
    | text s =>
      obtain ⟨fr', hfr, hne⟩ := appendLastFrame_ok (FrameElem.val (Dyn.str s)) st.parentsRef h
      exact ⟨{ st with parentsRef := fr' }, by simp [parseStep, hp, hfr], hne⟩
    | obj t a =>
      obtain ⟨fr', hfr, hne⟩ := appendLastFrame_ok (FrameElem.val (Dyn.obj t a)) st.parentsRef h
      exact ⟨{ st with parentsRef := fr' }, by simp [parseStep, hp, hfr], hne⟩
    | container t a =>
      obtain ⟨fr', hfr, _⟩ :=
        appendLastFrame_ok (FrameElem.val (Dyn.container t a [])) st.parentsRef h
      exact ⟨{ st with parentsRef := fr' ++ [[FrameElem.val (Dyn.container t a [])]] },
        by simp [parseStep, hp, hfr], by simp⟩
    | closeTag t => exact absurd hp (parse_line_no_closeTag l t)

theorem parseLines_ok (ls : List String) :
    ∀ st : ParseState, st.parentsRef ≠ [] →
      ∃ st', parseLines ls st = Except.ok st' ∧ st'.parentsRef ≠ [] := by
  induction ls with
  | nil => intro st h; exact ⟨st, rfl, h⟩
  | cons l ls2 ih =>
    intro st h
    obtain ⟨st1, h1, hne1⟩ := parseStep_ok st l h
    obtain ⟨st2, h2, hne2⟩ := ih st1 hne1
    exact ⟨st2, by simp [parseLines, h1, h2], hne2⟩

/-- C10: on every input string, however malformed, LyxDocument construction
terminates normally: the classifier returns a value for every line, a
CloseTag is never produced so the frame stack is never popped and stays
nonempty, and every error path of the loop only logs a warning, so no
exception escapes the constructor. -/
theorem c10_construction_never_raises (input : String) :
    exceptIsOk (mkLyxDocumentE input) = true := by
  obtain ⟨st, hst, _⟩ := parseLines_ok (pySplitChar '\n' input)
    { lyxContent := [], parentsRef := [[FrameElem.ref]], warnings := 0 } (by simp)
  simp [mkLyxDocumentE, hst, exceptIsOk]

/-- Witness for C10 at a concrete malformed input holding an unmatched close
tag, an unclosed open tag and plain text. -/
theorem c10_construction_never_raises_witness :
    exceptIsOk (mkLyxDocumentE "\\end_x\nhello\n\\begin_a") = true :=
  c10_construction_never_raises "\\end_x\nhello\n\\begin_a"
